import Mathlib

/-!
# Verification of the smoke-mortality pipeline (src/smoke_layer.ipynb)

Shallow embedding of the core of `smoke_layer.ipynb`:

* `fix_lon` (Grid Normalizer, notebook cell 5),
* `mortality` (Mortality Calculator, cell 8),
* `sum_within_country` (Country Aggregator, cell 7),
* the scenario cells 10/11/14/15/18/19 (Scenario Pipeline).

Conventions of the embedding:

* Coordinates are rationals (`ℚ`); cell values are `Option α` where `none`
  stands for a floating-point NaN (values are `ℚ` where decidable evaluation
  is needed and `ℝ` where the code applies `np.exp`).
* xarray binary arithmetic between two `DataArray`s aligns the operands by an
  inner join on coordinate labels (the intersection of the labels, in the
  left operand's order); this is embedded by `alignedBinop`.
* shapely's `Polygon.contains(Point)` is true exactly when the point lies in
  the polygon's topological interior; a point on the boundary is *not*
  contained.  This is embedded by `shapelyContains` (boundary test plus
  even-odd ray crossing for the interior), for simple polygons given as one
  vertex ring.
* `np.nansum` is embedded by `nansum`: `none` (NaN) cells count as `0`, and
  the sum of an empty list is `0`.
* Python's stable `sorted` is embedded by a stable insertion sort
  (`sortByLon`), chosen structurally recursive so concrete runs evaluate.
-/

namespace SmokeMortality

/-! ## Grid Normalizer: `fix_lon` (cell 5)

A `DataArray` with a `lon` dimension is embedded as `DA α`: the list of
longitude coordinate values, the list of data slabs (one per longitude; all
other dimensions of the array ride along inside `α`), and the optional
`_longitude_adjusted` auxiliary coordinate (present only after it has been
assigned onto the object, as `fix_lon`'s first statement does in place). -/

structure DA (α : Type) where
  lon : List ℚ
  data : List α
  extra : Option (List ℚ)
deriving DecidableEq

/-- Embeds `xr.where(ds[lon_name] > 180, ds[lon_name] - 360, ds[lon_name])`
applied to one longitude value. -/
def adjustLon (x : ℚ) : ℚ := if 180 < x then x - 360 else x

/-- Insert a (longitude, slab) pair before the first pair of strictly larger
longitude: one step of a stable sort by longitude. -/
def insertLon (p : ℚ × α) : List (ℚ × α) → List (ℚ × α)
  | [] => [p]
  | q :: qs => if q.1 < p.1 then q :: insertLon p qs else p :: q :: qs

/-- Embeds `.sel(_longitude_adjusted = sorted(ds._longitude_adjusted))`:
selecting the labels in Python's (stable) sorted order is, for distinct
labels, the stable sort of the (longitude, slab) pairs by longitude. -/
def sortByLon (l : List (ℚ × α)) : List (ℚ × α) := l.foldr insertLon []

/-- Embeds one call of `fix_lon(ds)` from cell 5.  The first component is the
returned dataset; the second is the state of the *caller's* argument after
the call: the line `ds['_longitude_adjusted'] = xr.where(...)` assigns a new
coordinate onto the passed-in object in place, before the later, non-mutating
`swap_dims / sel / drop / rename` chain rebinds the local name `ds` to fresh
derived objects. -/
def fix_lon_call (ds : DA α) : DA α × DA α :=
  let adjusted := ds.lon.map adjustLon
  let ds1 : DA α := ⟨ds.lon, ds.data, some adjusted⟩
  let pairs := sortByLon (adjusted.zip ds1.data)
  (⟨pairs.map Prod.fst, pairs.map Prod.snd, none⟩, ds1)

/-- The dataset returned by `fix_lon` (cell 5): longitudes adjusted by
`adjustLon`, the array re-ordered by the sorted adjusted longitudes, the old
`lon` dropped and `_longitude_adjusted` renamed to `lon`. -/
def fix_lon (ds : DA α) : DA α := (fix_lon_call ds).1

theorem adjustLon_le_180 {x : ℚ} (h : x ≤ 540) : adjustLon x ≤ 180 := by
  unfold adjustLon
  split <;> linarith

theorem adjustLon_eq_self {x : ℚ} (h : x ≤ 180) : adjustLon x = x := by
  unfold adjustLon
  split <;> [linarith; rfl]

theorem insertLon_perm (p : ℚ × α) (l : List (ℚ × α)) :
    (insertLon p l).Perm (p :: l) := by
  induction l with
  | nil => exact List.Perm.refl _
  | cons q qs ih =>
    unfold insertLon
    split
    · exact ((ih.cons q).trans (List.Perm.swap p q qs))
    · exact List.Perm.refl _

theorem sortByLon_perm (l : List (ℚ × α)) : (sortByLon l).Perm l := by
  induction l with
  | nil => exact List.Perm.refl _
  | cons p ps ih => exact (insertLon_perm p (sortByLon ps)).trans (ih.cons p)

theorem insertLon_pairwise (p : ℚ × α) (l : List (ℚ × α))
    (h : List.Pairwise (fun a b : ℚ × α => a.1 ≤ b.1) l) :
    List.Pairwise (fun a b : ℚ × α => a.1 ≤ b.1) (insertLon p l) := by
  induction l with
  | nil => simp [insertLon]
  | cons q qs ih =>
    rcases List.pairwise_cons.mp h with ⟨hq, hqs⟩
    unfold insertLon
    split
    · refine List.pairwise_cons.mpr ⟨?_, ih hqs⟩
      intro a ha
      have ha' : a ∈ p :: qs := (insertLon_perm p qs).mem_iff.mp ha
      rcases List.mem_cons.mp ha' with rfl | ha''
      · linarith
      · exact hq a ha''
    · refine List.pairwise_cons.mpr ⟨?_, h⟩
      intro a ha
      have hpq : p.1 ≤ q.1 := by linarith [lt_or_ge q.1 p.1]
      rcases List.mem_cons.mp ha with rfl | ha'
      · exact hpq
      · exact le_trans hpq (hq a ha')

theorem sortByLon_pairwise (l : List (ℚ × α)) :
    List.Pairwise (fun a b : ℚ × α => a.1 ≤ b.1) (sortByLon l) := by
  induction l with
  | nil => simp [sortByLon]
  | cons p ps ih => exact insertLon_pairwise p (sortByLon ps) ih

theorem sortByLon_of_sorted (l : List (ℚ × α))
    (h : List.Pairwise (fun a b : ℚ × α => a.1 ≤ b.1) l) : sortByLon l = l := by
  induction l with
  | nil => rfl
  | cons p ps ih =>
    rcases List.pairwise_cons.mp h with ⟨hp, hps⟩
    show insertLon p (sortByLon ps) = p :: ps
    rw [ih hps]
    cases ps with
    | nil => rfl
    | cons q qs =>
      have : ¬ q.1 < p.1 := not_lt.mpr (hp q (List.mem_cons_self q qs))
      simp [insertLon, this]

theorem fix_lon_pairs_eq (ds : DA α) :
    (fix_lon ds).lon.zip (fix_lon ds).data
      = sortByLon ((ds.lon.map adjustLon).zip ds.data) :=
  (List.zip_of_prod rfl rfl).symm

/-- C5 (amended): the Grid Normalizer is a pure relabeling.  For a raster
whose longitudes follow the `[0,360)` convention, the output longitudes are
sorted ascending, the cell count is preserved, every output cell pairs a
relabeled longitude `adjustLon x` (that is `x - 360` when `x > 180`, else
`x`) with the value the input held at `x`, and all output longitudes lie in
the half-open range `(-180, 180]` — not in `[-180, 180)`: longitude exactly
`180` is left at `180`. -/
theorem fix_lon_relabels (ds : DA α) (hlen : ds.lon.length = ds.data.length)
    (hrange : ∀ x ∈ ds.lon, 0 ≤ x ∧ x < 360) :
    (fix_lon ds).lon.length = ds.lon.length ∧
    List.Pairwise (fun a b : ℚ => a ≤ b) (fix_lon ds).lon ∧
    ((fix_lon ds).lon.zip (fix_lon ds).data).Perm ((ds.lon.map adjustLon).zip ds.data) ∧
    ∀ y ∈ (fix_lon ds).lon, -180 < y ∧ y ≤ 180 := by
  have hperm : ((fix_lon ds).lon.zip (fix_lon ds).data).Perm
      ((ds.lon.map adjustLon).zip ds.data) := by
    rw [fix_lon_pairs_eq]
    exact sortByLon_perm _
  refine ⟨?_, ?_, hperm, ?_⟩
  · show ((sortByLon ((ds.lon.map adjustLon).zip ds.data)).map Prod.fst).length
      = ds.lon.length
    rw [List.length_map, (sortByLon_perm _).length_eq, List.length_zip,
      List.length_map, hlen, min_self, ← hlen]
  · show List.Pairwise _ ((sortByLon ((ds.lon.map adjustLon).zip ds.data)).map Prod.fst)
    exact List.Pairwise.map Prod.fst (fun a b hab => hab) (sortByLon_pairwise _)
  · intro y hy
    show -180 < y ∧ y ≤ 180
    have hy' : y ∈ (sortByLon ((ds.lon.map adjustLon).zip ds.data)).map Prod.fst := hy
    rcases List.mem_map.mp hy' with ⟨p, hp, hpy⟩
    have hpmem : p ∈ (ds.lon.map adjustLon).zip ds.data :=
      (sortByLon_perm _).mem_iff.mp hp
    have h1 : p.1 ∈ ds.lon.map adjustLon := (List.of_mem_zip hpmem).1
    rcases List.mem_map.mp h1 with ⟨x, hx, hax⟩
    rcases hrange x hx with ⟨hx0, hx360⟩
    subst hpy
    rw [← hax]
    unfold adjustLon
    split <;> constructor <;> linarith

/-- C5 witness: `fix_lon_relabels` applied to the concrete raster with
longitudes `[190, 10]` and data `[1, 2]`. -/
theorem fix_lon_relabels_witness :
    (fix_lon (⟨[190, 10], [1, 2], none⟩ : DA ℚ)).lon.length = 2 ∧
    List.Pairwise (fun a b : ℚ => a ≤ b)
      (fix_lon (⟨[190, 10], [1, 2], none⟩ : DA ℚ)).lon := by
  have h := fix_lon_relabels (⟨[190, 10], [1, 2], none⟩ : DA ℚ) (by decide)
    (by decide)
  exact ⟨h.1, h.2.1⟩

/-- C5 counterexample: the input longitude `180` (a legal `[0,360)`-convention
coordinate, present on the notebook's 1.25°-spaced grid) is left at `180` by
`fix_lon`, so the output longitudes do *not* all lie in `[-180, 180)`. -/
theorem fix_lon_range_counterexample :
    ¬ ∀ y ∈ (fix_lon (⟨[180], [0], none⟩ : DA ℚ)).lon, -180 ≤ y ∧ y < 180 := by
  decide

/-- C9 (amended): `fix_lon` is idempotent on every raster whose longitudes
are all at most `540` — in particular on the `[0,360)` convention and on
already-normalized rasters.  (It is not idempotent on arbitrary rasters: see
the counterexample at longitude `900`.) -/
theorem fix_lon_idempotent (ds : DA α) (h : ∀ x ∈ ds.lon, x ≤ 540) :
    fix_lon (fix_lon ds) = fix_lon ds := by
  have hall : ∀ y ∈ (fix_lon ds).lon, y ≤ 180 := by
    intro y hy
    have hy' : y ∈ (sortByLon ((ds.lon.map adjustLon).zip ds.data)).map Prod.fst := hy
    rcases List.mem_map.mp hy' with ⟨p, hp, hpy⟩
    have hpmem : p ∈ (ds.lon.map adjustLon).zip ds.data :=
      (sortByLon_perm _).mem_iff.mp hp
    have h1 : p.1 ∈ ds.lon.map adjustLon := (List.of_mem_zip hpmem).1
    rcases List.mem_map.mp h1 with ⟨x, hx, hax⟩
    rw [← hpy, ← hax]
    exact adjustLon_le_180 (h x hx)
  have hmapid : (fix_lon ds).lon.map adjustLon = (fix_lon ds).lon := by
    conv_rhs => rw [← List.map_id ((fix_lon ds).lon)]
    exact List.map_congr_left (fun y hy => adjustLon_eq_self (hall y hy))
  have hsorted : List.Pairwise (fun a b : ℚ × α => a.1 ≤ b.1)
      ((fix_lon ds).lon.zip (fix_lon ds).data) := by
    rw [fix_lon_pairs_eq]
    exact sortByLon_pairwise _
  show (fix_lon_call (fix_lon ds)).1 = fix_lon ds
  unfold fix_lon_call
  simp only [hmapid]
  rw [sortByLon_of_sorted _ hsorted]
  have hfst : ((fix_lon ds).lon.zip (fix_lon ds).data).map Prod.fst = (fix_lon ds).lon := by
    rw [fix_lon_pairs_eq]
    rfl
  have hsnd : ((fix_lon ds).lon.zip (fix_lon ds).data).map Prod.snd = (fix_lon ds).data := by
    rw [fix_lon_pairs_eq]
    rfl
  have hextra : (fix_lon ds).extra = none := rfl
  cases hds : fix_lon ds with
  | mk l d e =>
    simp only [hds] at hfst hsnd hextra
    simp [hfst, hsnd, hextra]

/-- C9 witness: `fix_lon_idempotent` applied to the concrete raster with
longitudes `[200, 10]`. -/
theorem fix_lon_idempotent_witness :
    fix_lon (fix_lon (⟨[200, 10], [1, 2], none⟩ : DA ℚ))
      = fix_lon (⟨[200, 10], [1, 2], none⟩ : DA ℚ) :=
  fix_lon_idempotent (⟨[200, 10], [1, 2], none⟩ : DA ℚ) (by decide)

/-- C9 counterexample: at longitude `900` one application of `fix_lon` yields
`540` (still above `180`) and a second application yields `180`, so
`normalize (normalize R) ≠ normalize R` on this raster. -/
theorem fix_lon_not_idempotent_counterexample :
    fix_lon (fix_lon (⟨[900], [0], none⟩ : DA ℚ))
      ≠ fix_lon (⟨[900], [0], none⟩ : DA ℚ) := by
  norm_num [fix_lon, fix_lon_call, sortByLon, insertLon, adjustLon, DA.mk.injEq]

/-- C8 (amended): `fix_lon` leaves the input's `lon` coordinate, dimensions
and data values untouched, but it does mutate the input in place: the line
`ds['_longitude_adjusted'] = xr.where(...)` assigns the auxiliary
`_longitude_adjusted` coordinate onto the caller's object; only the
subsequent reordering happens on derived copies. -/
theorem fix_lon_input_state (ds : DA α) :
    (fix_lon_call ds).2.lon = ds.lon ∧
    (fix_lon_call ds).2.data = ds.data ∧
    (fix_lon_call ds).2.extra = some (ds.lon.map adjustLon) :=
  ⟨rfl, rfl, rfl⟩

/-- C8 counterexample: after `fix_lon` is called on the raster with longitude
`[190]`, the caller's input object is no longer equal to its pre-call state —
it has gained the `_longitude_adjusted` coordinate `[-170]`. -/
theorem fix_lon_mutates_counterexample :
    (fix_lon_call (⟨[190], [0], none⟩ : DA ℚ)).2 ≠ (⟨[190], [0], none⟩ : DA ℚ) := by
  decide

/-! ## Rasters and the Mortality Calculator: `mortality` (cell 8)

A 2-D `DataArray` over a (lat, lon) grid is embedded as `Raster α`: the two
coordinate label lists and the dense value rows (row `i` holds the values
along longitude at latitude `lat[i]`; `none` is a NaN cell). -/

structure Raster (α : Type) where
  lat : List ℚ
  lon : List ℚ
  vals : List (List (Option α))
deriving DecidableEq

/-- The value at integer position `(i, j)` of the grid (out-of-range reads
give `none`, which never arises on well-formed rasters). -/
def valAtPos (r : Raster α) (i j : ℕ) : Option α :=
  (r.vals.getD i []).getD j none

/-- The value at coordinate labels `(la, lo)`: label-based selection, as
xarray indexes by coordinate value (first matching label). -/
def valAtLabel [DecidableEq α] (r : Raster α) (la lo : ℚ) : Option α :=
  (r.vals.getD (r.lat.indexOf la) []).getD (r.lon.indexOf lo) none

/-- Embeds xarray binary arithmetic (`*`, `-`) between two `DataArray`s:
operands are automatically aligned by an inner join on coordinate labels —
the result grid is the intersection of the two label sets, in the left
operand's order, and each result cell combines the operands' values at that
label pair (NaN if either is NaN).  No error is raised on mismatched grids. -/
def alignedBinop [DecidableEq α] (f : α → α → α) (a b : Raster α) : Raster α :=
  let lat := a.lat.filter (fun x => decide (x ∈ b.lat))
  let lon := a.lon.filter (fun x => decide (x ∈ b.lon))
  ⟨lat, lon,
    lat.map (fun la => lon.map (fun lo =>
      match valAtLabel a la lo, valAtLabel b la lo with
      | some x, some y => some (f x y)
      | _, _ => none))⟩

/-- Embeds a NumPy elementwise function applied to a `DataArray` (such as
`1 - np.exp(-1.1 * pm25)`): same grid, value mapped cell-wise, NaN to NaN. -/
def emap (f : α → α) (r : Raster α) : Raster α :=
  ⟨r.lat, r.lon, r.vals.map (fun row => row.map (fun v => Option.map f v))⟩

/-- The concentration-response factor `1 - np.exp(-1.1 * pm25)` applied to
one cell's concentration; `1.1` is the source's fixed literature constant. -/
noncomputable def fireFactor (x : ℝ) : ℝ := 1 - Real.exp (-(11/10) * x)

/-- Embeds `mortality(pm25, b, population)` from cell 8:
`temp_ds = b * (1-np.exp(-1.1 * (pm25))) * population` (the following line
`temp_ds['lon'] = temp_ds['lon']` is a self-assignment with no effect).
The two `*` are xarray products, hence `alignedBinop`, associated to the
left as in the source. -/
noncomputable def mortality (pm25 b population : Raster ℝ) : Raster ℝ :=
  alignedBinop (fun x y => x * y)
    (alignedBinop (fun x y => x * y) b (emap fireFactor pm25))
    population

theorem indexOf_getElem_of_nodup [DecidableEq α] :
    ∀ (l : List α), l.Nodup → ∀ i, (hi : i < l.length) → l.indexOf (l[i]) = i := by
  intro l
  induction l with
  | nil => intro _ i hi; simp at hi
  | cons a t ih =>
    intro h i hi
    cases i with
    | zero => exact List.indexOf_cons_self a t
    | succ n =>
      have hn : n < t.length := by simpa using hi
      have hmem : t[n] ∈ t := List.getElem_mem hn
      have hne : ¬ (a == t[n]) = true := by
        intro hb
        exact (List.nodup_cons.mp h).1 ((beq_iff_eq.mp hb) ▸ hmem)
      have hgr : (a :: t)[n + 1] = t[n] := List.getElem_cons_succ a t n hi
      rw [hgr, List.indexOf_cons, Bool.eq_false_iff.mpr hne, cond_false,
        ih (List.nodup_cons.mp h).2 n hn]

theorem getD_map_getElem (g : α → β) (l : List α) (d : β) {i : ℕ}
    (hi : i < l.length) : (l.map g).getD i d = g (l[i]) := by
  rw [List.getD_eq_getElem _ _ (by simpa using hi), List.getElem_map]

theorem valAtPos_emap (f : α → α) (r : Raster α) (i j : ℕ) :
    valAtPos (emap f r) i j = Option.map f (valAtPos r i j) := by
  unfold valAtPos emap
  dsimp only
  rw [List.getD_eq_getElem?_getD (r.vals.map _) i, List.getElem?_map,
    List.getD_eq_getElem?_getD r.vals i]
  cases hrow : r.vals[i]? with
  | none => simp
  | some row =>
    simp only [Option.map_some', Option.getD_some]
    rw [List.getD_eq_getElem?_getD (row.map _) j, List.getElem?_map,
      List.getD_eq_getElem?_getD row j]
    cases hv : row[j]? <;> simp

theorem alignedBinop_lat [DecidableEq α] (f : α → α → α) (a b : Raster α)
    (h : ∀ x ∈ a.lat, x ∈ b.lat) : (alignedBinop f a b).lat = a.lat :=
  List.filter_eq_self.mpr (fun x hx => decide_eq_true (h x hx))

theorem alignedBinop_lon [DecidableEq α] (f : α → α → α) (a b : Raster α)
    (h : ∀ x ∈ a.lon, x ∈ b.lon) : (alignedBinop f a b).lon = a.lon :=
  List.filter_eq_self.mpr (fun x hx => decide_eq_true (h x hx))

theorem valAtLabel_getElem [DecidableEq α] (r : Raster α)
    (hndlat : r.lat.Nodup) (hndlon : r.lon.Nodup)
    {i j : ℕ} (hi : i < r.lat.length) (hj : j < r.lon.length) :
    valAtLabel r (r.lat[i]) (r.lon[j]) = valAtPos r i j := by
  unfold valAtLabel valAtPos
  rw [indexOf_getElem_of_nodup r.lat hndlat i hi,
    indexOf_getElem_of_nodup r.lon hndlon j hj]

theorem alignedBinop_vals [DecidableEq α] (f : α → α → α) (a b : Raster α) :
    (alignedBinop f a b).vals
      = (alignedBinop f a b).lat.map (fun la => (alignedBinop f a b).lon.map (fun lo =>
          match valAtLabel a la lo, valAtLabel b la lo with
          | some x, some y => some (f x y)
          | _, _ => none)) := rfl

theorem alignedBinop_valAtPos [DecidableEq α] (f : α → α → α) (a b : Raster α)
    (hlat : a.lat = b.lat) (hlon : a.lon = b.lon)
    (hndlat : a.lat.Nodup) (hndlon : a.lon.Nodup)
    {i j : ℕ} (hi : i < a.lat.length) (hj : j < a.lon.length) :
    valAtPos (alignedBinop f a b) i j =
      match valAtPos a i j, valAtPos b i j with
      | some x, some y => some (f x y)
      | _, _ => none := by
  have hsub : ∀ x ∈ a.lat, x ∈ b.lat := fun x hx => hlat ▸ hx
  have hsub' : ∀ x ∈ a.lon, x ∈ b.lon := fun x hx => hlon ▸ hx
  have hval : valAtPos (alignedBinop f a b) i j =
      match valAtLabel a (a.lat[i]) (a.lon[j]), valAtLabel b (a.lat[i]) (a.lon[j]) with
      | some x, some y => some (f x y)
      | _, _ => none := by
    unfold valAtPos
    rw [alignedBinop_vals, alignedBinop_lat f a b hsub, alignedBinop_lon f a b hsub',
      getD_map_getElem _ _ _ hi, getD_map_getElem _ _ _ hj]
  rw [hval, valAtLabel_getElem a hndlat hndlon hi hj]
  have hib : i < b.lat.length := hlat ▸ hi
  have hjb : j < b.lon.length := hlon ▸ hj
  have hgi : a.lat[i] = b.lat.get ⟨i, hib⟩ := by simp [hlat]
  have hgj : a.lon[j] = b.lon.get ⟨j, hjb⟩ := by simp [hlon]
  rw [hgi, hgj]
  have hb := valAtLabel_getElem b (hlat ▸ hndlat) (hlon ▸ hndlon) hib hjb
  rw [show valAtLabel b (b.lat.get ⟨i, hib⟩) (b.lon.get ⟨j, hjb⟩)
      = valAtLabel b (b.lat[i]) (b.lon[j]) from rfl, hb]

/-- C1: with the three input rasters on one common grid (as at every call
site, after `fix_lon` and the coordinate assignments of cell 12), the
Mortality Calculator returns, at each cell `(i, j)`, exactly
`rate[i,j] * (1 - exp(-1.1 * concentration[i,j])) * population[i,j]`
(`NaN` when any input cell is `NaN`, matching the cell-wise NaN propagation
of the floating-point formula). -/
theorem mortality_formula (pm25 b population : Raster ℝ)
    (hblat : b.lat = pm25.lat) (hblon : b.lon = pm25.lon)
    (hplat : population.lat = pm25.lat) (hplon : population.lon = pm25.lon)
    (hndlat : pm25.lat.Nodup) (hndlon : pm25.lon.Nodup)
    (i j : ℕ) (hi : i < pm25.lat.length) (hj : j < pm25.lon.length) :
    valAtPos (mortality pm25 b population) i j =
      match valAtPos b i j, valAtPos pm25 i j, valAtPos population i j with
      | some r, some c, some p => some (r * (1 - Real.exp (-(11/10) * c)) * p)
      | _, _, _ => none := by
  have hemap_lat : (emap fireFactor pm25).lat = pm25.lat := rfl
  have hemap_lon : (emap fireFactor pm25).lon = pm25.lon := rfl
  have hinner_lat : (alignedBinop (fun x y : ℝ => x * y) b (emap fireFactor pm25)).lat
      = b.lat :=
    alignedBinop_lat _ _ _ (fun x hx => show x ∈ pm25.lat from hblat ▸ hx)
  have hinner_lon : (alignedBinop (fun x y : ℝ => x * y) b (emap fireFactor pm25)).lon
      = b.lon :=
    alignedBinop_lon _ _ _ (fun x hx => show x ∈ pm25.lon from hblon ▸ hx)
  have hib : i < b.lat.length := by rw [hblat]; exact hi
  have hjb : j < b.lon.length := by rw [hblon]; exact hj
  have hndb_lat : b.lat.Nodup := by rw [hblat]; exact hndlat
  have hndb_lon : b.lon.Nodup := by rw [hblon]; exact hndlon
  have hinner := alignedBinop_valAtPos (fun x y : ℝ => x * y) b (emap fireFactor pm25)
    (by rw [hemap_lat]; exact hblat) (by rw [hemap_lon]; exact hblon)
    hndb_lat hndb_lon hib hjb
  have houter := alignedBinop_valAtPos (fun x y : ℝ => x * y)
    (alignedBinop (fun x y : ℝ => x * y) b (emap fireFactor pm25)) population
    (by rw [hinner_lat, hblat, hplat]) (by rw [hinner_lon, hblon, hplon])
    (by rw [hinner_lat]; exact hndb_lat) (by rw [hinner_lon]; exact hndb_lon)
    (by rw [hinner_lat]; exact hib) (by rw [hinner_lon]; exact hjb)
  unfold mortality
  rw [houter]
  simp only [hinner, valAtPos_emap]
  rcases valAtPos b i j with _ | rv <;>
    rcases valAtPos pm25 i j with _ | cv <;>
      rcases valAtPos population i j with _ | pv <;> rfl

/-- C1 witness: `mortality_formula` on concrete 1×1 rasters with
concentration 2, rate 3 and population 5. -/
theorem mortality_formula_witness :
    valAtPos (mortality (⟨[0], [0], [[some 2]]⟩ : Raster ℝ)
      (⟨[0], [0], [[some 3]]⟩ : Raster ℝ) (⟨[0], [0], [[some 5]]⟩ : Raster ℝ)) 0 0 =
      some (3 * (1 - Real.exp (-(11/10) * 2)) * 5) := by
  have h := mortality_formula (⟨[0], [0], [[some 2]]⟩ : Raster ℝ)
    (⟨[0], [0], [[some 3]]⟩ : Raster ℝ) (⟨[0], [0], [[some 5]]⟩ : Raster ℝ)
    rfl rfl rfl rfl (by decide) (by decide) 0 0 (by decide) (by decide)
  simpa [valAtPos] using h

/-- C4 (amended): the Mortality Calculator performs no grid validation and
raises no `ShapeMismatchError`: it is a total function, and xarray's
automatic label alignment silently restricts the computation to the
intersection of the three inputs' coordinate labels (no broadcasting beyond
the common labels, no interpolation). -/
theorem mortality_no_validation (pm25 b population : Raster ℝ) :
    (∀ x, x ∈ (mortality pm25 b population).lat ↔
      x ∈ b.lat ∧ x ∈ pm25.lat ∧ x ∈ population.lat) ∧
    (∀ x, x ∈ (mortality pm25 b population).lon ↔
      x ∈ b.lon ∧ x ∈ pm25.lon ∧ x ∈ population.lon) := by
  constructor <;> intro x <;>
    (simp [mortality, alignedBinop, emap, List.mem_filter]; tauto)

/-- C4 counterexample: called on rasters whose longitude arrays differ in
length and in value (`[0, 240]` for the rate against `[0, 120]` for the
concentration and `[0]` for the population), `mortality` does not fail — it
returns a raster silently truncated to the common longitude `[0]`. -/
theorem mortality_mismatch_counterexample :
    (⟨[0], [0, 240], [[some 1, some 1]]⟩ : Raster ℝ).lon
        ≠ (⟨[0], [0, 120], [[some 1, some 1]]⟩ : Raster ℝ).lon ∧
    (mortality (⟨[0], [0, 120], [[some 1, some 1]]⟩ : Raster ℝ)
      (⟨[0], [0, 240], [[some 1, some 1]]⟩ : Raster ℝ)
      (⟨[0], [0], [[some 1]]⟩ : Raster ℝ)).lon = [0] ∧
    (mortality (⟨[0], [0, 120], [[some 1, some 1]]⟩ : Raster ℝ)
      (⟨[0], [0, 240], [[some 1, some 1]]⟩ : Raster ℝ)
      (⟨[0], [0], [[some 1]]⟩ : Raster ℝ)).lat = [0] := by
  refine ⟨by decide, ?_, ?_⟩ <;>
    norm_num [mortality, alignedBinop, emap, List.filter]

/-! ## Country Aggregator: `sum_within_country` (cell 7)

Geometry over `ℚ`: a point is `(x, y) = (lon, lat)`, matching the source's
`Point(lon, lat)`; a country polygon is one vertex ring (multi-part
geometries obey the same per-ring semantics). -/

abbrev Pt := ℚ × ℚ

/-- The point `p` lies on the closed segment from `a` to `b` (collinear and
inside the bounding box). -/
def onSegment (a b p : Pt) : Bool :=
  decide ((b.1 - a.1) * (p.2 - a.2) = (b.2 - a.2) * (p.1 - a.1)) &&
  decide (min a.1 b.1 ≤ p.1) && decide (p.1 ≤ max a.1 b.1) &&
  decide (min a.2 b.2 ≤ p.2) && decide (p.2 ≤ max a.2 b.2)

/-- The edges of a polygon ring: consecutive vertex pairs, closing back to
the first vertex. -/
def edges (poly : List Pt) : List (Pt × Pt) := poly.zip (poly.drop 1 ++ poly.take 1)

/-- The point lies on the polygon's boundary (on some edge segment). -/
def onBoundary (poly : List Pt) (p : Pt) : Bool :=
  (edges poly).any (fun e => onSegment e.1 e.2 p)

/-- One step of even-odd ray casting: the horizontal ray to the right from
`p` crosses the edge `e` (the classical point-in-polygon crossing test). -/
def crossesRay (p : Pt) (e : Pt × Pt) : Bool :=
  (decide (p.2 < e.1.2) != decide (p.2 < e.2.2)) &&
  decide (p.1 < e.1.1 + (e.2.1 - e.1.1) * (p.2 - e.1.2) / (e.2.2 - e.1.2))

/-- The ray from `p` crosses the polygon's edges an odd number of times. -/
def oddCrossings (poly : List Pt) (p : Pt) : Bool :=
  (edges poly).foldl (fun acc e => if crossesRay p e then !acc else acc) false

/-- Models shapely's `country_polygon.contains(point)` as called in cell 7:
per the shapely/GEOS contract, a polygon `contains` a point exactly when the
point lies in the polygon's topological *interior* — a point on the boundary
is not contained. -/
def shapelyContains (poly : List Pt) (p : Pt) : Bool :=
  !onBoundary poly p && oddCrossings poly p

/-- Modelled from the spec: "closed evaluation per cell: interior or boundary
counts as contained" — the closed-containment predicate the spec ascribes to
the aggregator, stated for comparison with the source's `shapelyContains`. -/
def closedContains (poly : List Pt) (p : Pt) : Bool :=
  onBoundary poly p || oddCrossings poly p

/-- A record of the Natural Earth `admin_0_countries` shapefile, exposing the
`NAME` attribute read by cell 7. -/
structure CountryRecord where
  name : String
deriving DecidableEq

/-- Embeds the meshgrid/ravel step of cell 7: every grid cell of the raster,
as (`Point(lon, lat)` center, value), latitude-major as produced by
`np.meshgrid(lats, lons, indexing="ij")` followed by `.ravel()`. -/
def cellList (r : Raster α) : List (Pt × Option α) :=
  (r.lat.zip r.vals).flatMap (fun lr =>
    (r.lon.zip lr.2).map (fun lv => ((lv.1, lr.1), lv.2)))

/-- Embeds `np.nansum`: NaN (`none`) summands count as `0`, and the sum of an
empty list is `0`. -/
def nansum [AddCommMonoid β] (xs : List (Option β)) : β :=
  xs.foldl (fun acc v => acc + v.getD 0) 0

/-- Embeds `sum_within_country(data, countries)` from cell 7.  The
`country_info` parameter stands for the record list the function loads
internally from the Natural Earth `admin_0_countries` shapefile
(`list(reader.records())` — file I/O, embedded as an input); `countries` is
the caller's geometry list, and the two are paired positionally by the
source's `zip(countries, country_info)`. -/
def sum_within_country [AddCommMonoid β] (data : Raster β)
    (countries : List (List Pt)) (country_info : List CountryRecord) :
    List (String × β) :=
  (countries.zip country_info).map (fun ci =>
    (ci.2.name,
      nansum (((cellList data).filter (fun c => shapelyContains ci.1 c.1)).map Prod.snd)))

theorem foldl_nansum_aux [AddCommMonoid β] :
    ∀ (xs : List (Option β)), (∀ v ∈ xs, v = none) → ∀ acc : β,
      xs.foldl (fun a v => a + v.getD 0) acc = acc := by
  intro xs
  induction xs with
  | nil => intro _ acc; rfl
  | cons x t ih =>
    intro h acc
    have hx : x = none := h x (List.mem_cons_self x t)
    show t.foldl _ (acc + x.getD 0) = acc
    rw [hx]
    show t.foldl _ (acc + (0 : β)) = acc
    rw [add_zero]
    exact ih (fun v hv => h v (List.mem_cons_of_mem x hv)) acc

theorem nansum_eq_zero [AddCommMonoid β] (xs : List (Option β))
    (h : ∀ v ∈ xs, v = none) : nansum xs = 0 :=
  foldl_nansum_aux xs h 0

theorem zip_getElem? {γ δ : Type} :
    ∀ (l₁ : List γ) (l₂ : List δ) (k : ℕ),
      (l₁.zip l₂)[k]? = match l₁[k]?, l₂[k]? with
        | some a, some b => some (a, b)
        | _, _ => none := by
  intro l₁
  induction l₁ with
  | nil => intro l₂ k; cases l₂ <;> cases k <;> simp
  | cons a t ih =>
    intro l₂ k
    cases l₂ with
    | nil => cases k <;> simp
    | cons b s =>
      cases k with
      | zero => simp
      | succ n => simpa using ih s n

theorem sum_within_country_fst_aux [AddCommMonoid β] (data : Raster β) :
    ∀ (countries : List (List Pt)) (country_info : List CountryRecord),
      (sum_within_country data countries country_info).map Prod.fst
          = (country_info.map CountryRecord.name).take countries.length := by
  intro countries
  induction countries with
  | nil => intro info; simp [sum_within_country]
  | cons g gs ih =>
    intro info
    cases info with
    | nil => simp [sum_within_country]
    | cons r rs =>
      have h := ih rs
      simp only [sum_within_country, List.zip_cons_cons, List.map_cons,
        List.take_succ_cons] at h ⊢
      simp [h]

/-- C10: the country names of the aggregator's output come from the
internally loaded Natural Earth record list (`country_info`), paired
positionally with the caller's geometry list by `zip`: the output names are
the first `min(len(countries), len(country_info))` internal record names in
record order, and the output has exactly that many entries.  No record data
supplied by the caller enters the output keys (the function takes none). -/
theorem sum_within_country_names [AddCommMonoid β] (data : Raster β)
    (countries : List (List Pt)) (country_info : List CountryRecord) :
    (sum_within_country data countries country_info).map Prod.fst
        = (country_info.map CountryRecord.name).take countries.length ∧
    (sum_within_country data countries country_info).length
        = min countries.length country_info.length := by
  refine ⟨sum_within_country_fst_aux data countries country_info, ?_⟩
  show (((countries.zip country_info).map _).length) = _
  rw [List.length_map, List.length_zip]

/-- C3 (amended): the aggregator performs no index-alignment validation and
raises no `IndexAlignmentError`: when the geometry list and the record list
differ in length, `zip` silently truncates the pairing to the shorter
sequence and the aggregation proceeds. -/
theorem sum_within_country_truncates [AddCommMonoid β] (data : Raster β)
    (countries : List (List Pt)) (country_info : List CountryRecord)
    (h : countries.length ≠ country_info.length) :
    (sum_within_country data countries country_info).length
        = min countries.length country_info.length := by
  show (((countries.zip country_info).map _).length) = _
  rw [List.length_map, List.length_zip]

/-- C3 witness: `sum_within_country_truncates` at two geometries against one
record. -/
theorem sum_within_country_truncates_witness :
    ([[((0:ℚ),(0:ℚ))], [(1,1)]] : List (List Pt)).length
        ≠ ([⟨"Afghanistan"⟩] : List CountryRecord).length ∧
    (sum_within_country (⟨[], [], []⟩ : Raster ℚ) [[(0,0)], [(1,1)]]
        [⟨"Afghanistan"⟩]).length = min 2 1 :=
  ⟨by decide, sum_within_country_truncates _ _ _ (by decide)⟩

/-- C3 counterexample: called with two geometries and one record — sequences
that differ in length — the aggregator does not fail: it silently returns the
single truncated pairing. -/
theorem sum_within_country_no_length_check_counterexample :
    sum_within_country (⟨[], [], []⟩ : Raster ℚ) [[(0,0)], [(1,1)]]
        [⟨"Afghanistan"⟩] = [("Afghanistan", 0)] := by
  decide

/-- C2 (amended): a grid cell's value is included in a country's sum exactly
when the cell center lies strictly in the polygon's *interior* (shapely
`contains`); the spec's closed-containment description is accurate precisely
for rasters none of whose cell centers lie on the polygon's boundary, where
the two predicates coincide. -/
theorem sum_within_country_closed_off_boundary [AddCommMonoid β] (data : Raster β)
    (countries : List (List Pt)) (country_info : List CountryRecord)
    (k : ℕ) (poly : List Pt) (rec : CountryRecord)
    (hk : (countries.zip country_info)[k]? = some (poly, rec))
    (hb : ∀ c ∈ cellList data, onBoundary poly c.1 = false) :
    (sum_within_country data countries country_info)[k]?
      = some (rec.name,
          nansum (((cellList data).filter
            (fun c => closedContains poly c.1)).map Prod.snd)) := by
  show (((countries.zip country_info).map _)[k]?) = _
  rw [List.getElem?_map, hk]
  simp only [Option.map_some']
  have hfilter : (cellList data).filter (fun c => shapelyContains poly c.1)
      = (cellList data).filter (fun c => closedContains poly c.1) := by
    refine List.filter_congr (fun c hc => ?_)
    have hbc := hb c hc
    unfold shapelyContains closedContains
    rw [hbc]
    simp
  rw [hfilter]

/-- C2 witness: `sum_within_country_closed_off_boundary` on a 1-cell raster
whose center `(3,3)` lies strictly inside the square `(1,1)-(5,5)`. -/
theorem sum_within_country_closed_off_boundary_witness :
    (sum_within_country (⟨[3], [3], [[some 5]]⟩ : Raster ℚ)
        [[(1,1),(5,1),(5,5),(1,5)]] [⟨"A"⟩])[0]?
      = some ("A",
          nansum (((cellList (⟨[3], [3], [[some 5]]⟩ : Raster ℚ)).filter
            (fun c => closedContains [(1,1),(5,1),(5,5),(1,5)] c.1)).map Prod.snd)) :=
  sum_within_country_closed_off_boundary (⟨[3], [3], [[some 5]]⟩ : Raster ℚ)
    [[(1,1),(5,1),(5,5),(1,5)]] [⟨"A"⟩] 0 [(1,1),(5,1),(5,5),(1,5)] ⟨"A"⟩ rfl
    (by norm_num [cellList, onBoundary, edges, onSegment])

/-- C2 counterexample: a cell center `(lon, lat) = (1, 3)` on the boundary of
the square `(1,1)-(5,5)` is contained under the spec's closed evaluation, yet
the aggregator excludes its value `5` from the country sum, returning `0`. -/
theorem boundary_center_excluded_counterexample :
    closedContains [(1,1),(5,1),(5,5),(1,5)] ((1 : ℚ), (3 : ℚ)) = true ∧
    sum_within_country (⟨[3], [1], [[some 5]]⟩ : Raster ℚ)
        [[(1,1),(5,1),(5,5),(1,5)]] [⟨"A"⟩] = [("A", 0)] := by
  have hcell : cellList (⟨[3], [1], [[some 5]]⟩ : Raster ℚ)
      = [(((1 : ℚ), (3 : ℚ)), some (5 : ℚ))] := rfl
  have hcont : shapelyContains [(1,1),(5,1),(5,5),(1,5)] ((1 : ℚ), (3 : ℚ)) = false := by
    norm_num [shapelyContains, onBoundary, edges, onSegment, oddCrossings, crossesRay]
  constructor
  · norm_num [closedContains, onBoundary, edges, onSegment]
  · simp only [sum_within_country, hcell, List.zip_cons_cons, List.zip_nil_right,
      List.map_cons, List.map_nil, List.filter_cons, hcont, Bool.false_eq_true,
      if_false, List.filter_nil, nansum, List.foldl_nil]

/-- C6: a country all of whose contained cell centers carry NaN values — in
particular one containing no cell center at all — receives the sum `0`
exactly (the result type has no NaN: `np.nansum` skips NaN cells and sums an
empty selection to `0.0`). -/
theorem sum_within_country_nan_zero [AddCommMonoid β] (data : Raster β)
    (countries : List (List Pt)) (country_info : List CountryRecord)
    (k : ℕ) (poly : List Pt) (rec : CountryRecord)
    (hk : (countries.zip country_info)[k]? = some (poly, rec))
    (hnan : ∀ c ∈ cellList data, shapelyContains poly c.1 = true → c.2 = none) :
    (sum_within_country data countries country_info)[k]? = some (rec.name, 0) := by
  show (((countries.zip country_info).map _)[k]?) = _
  rw [List.getElem?_map, hk]
  simp only [Option.map_some']
  have hzero : nansum (((cellList data).filter
      (fun c => shapelyContains poly c.1)).map Prod.snd) = (0 : β) := by
    apply nansum_eq_zero
    intro v hv
    rcases List.mem_map.mp hv with ⟨c, hc, hcv⟩
    rcases List.mem_filter.mp hc with ⟨hcm, hcp⟩
    rw [← hcv]
    exact hnan c hcm hcp
  rw [hzero]

/-- C6 witness: `sum_within_country_nan_zero` on a 1-cell raster whose only
cell, with center `(3,3)` inside the square, holds NaN: the country sum is
exactly `0`. -/
theorem sum_within_country_nan_zero_witness :
    (sum_within_country (⟨[3], [3], [[none]]⟩ : Raster ℚ)
        [[(1,1),(5,1),(5,5),(1,5)]] [⟨"A"⟩])[0]? = some ("A", 0) :=
  sum_within_country_nan_zero (⟨[3], [3], [[none]]⟩ : Raster ℚ)
    [[(1,1),(5,1),(5,5),(1,5)]] [⟨"A"⟩] 0 [(1,1),(5,1),(5,5),(1,5)] ⟨"A"⟩ rfl
    (by simp [cellList])

/-! ## Scenario Pipeline (cells 10, 11, 14, 15, 18, 19)

Cells 10 and 11 wrap each year's PM2.5 loads in `try/except`.  Only the 2100
handler assigns `None` to its variables on failure; a failed 2000 (or 2050)
load merely prints and leaves `baseline_pm25_2000` (resp. `..._2050`)
unbound, so the later cells that reference them raise `NameError`.  An
`Option YearData` input below is `none` for a year whose source rasters
could not be loaded. -/

structure YearData where
  baseline : Raster ℝ
  nofire : Raster ℝ
  population : Raster ℝ

/-- One year's mortality rasters as computed in cells 14/15: baseline,
no-fire, and their cell-wise difference (xarray subtraction, which aligns
like every xarray binary operation). -/
noncomputable def yearMortality (death_rate : Raster ℝ) (d : YearData) :
    Raster ℝ × Raster ℝ × Raster ℝ :=
  let bm := mortality d.baseline death_rate d.population
  let nm := mortality d.nofire death_rate d.population
  (bm, nm, alignedBinop (fun x y => x - y) bm nm)

abbrev Sums := List (String × ℝ)

/-- One year's three country aggregates (baseline, no-fire, difference), as
computed in cells 18/19. -/
noncomputable def aggTriple (m : Raster ℝ × Raster ℝ × Raster ℝ)
    (cs : List (List Pt)) (info : List CountryRecord) : Sums × Sums × Sums :=
  (sum_within_country m.1 cs info, sum_within_country m.2.1 cs info,
    sum_within_country m.2.2 cs info)

/-- Embeds pandas `Series` subtraction between two aggregates sharing one
country index (both produced from the same `countries` list, as in the
notebook). -/
def seriesSub (a b : Sums) : Sums :=
  List.zipWith (fun x y => (x.1, x.2 - y.2)) a b

/-- The outputs of the notebook's scenario cells.  `Except.error` models a
Python exception escaping the cell — here always the `NameError` raised when
a failed load in cells 10/11 left a name unbound; an `Option` inside `.ok`
models a value the notebook deliberately set to `None` for the absent
optional 2100 horizon. -/
structure PipelineResult where
  cell14 : Except String (Raster ℝ × Raster ℝ × Raster ℝ)
  cell15 : Except String
    ((Raster ℝ × Raster ℝ × Raster ℝ) × Option (Raster ℝ × Raster ℝ × Raster ℝ))
  cell18 : Except String (Sums × Sums × Sums)
  cell19 : Except String
    ((Sums × Sums × Sums) × Sums × Option ((Sums × Sums × Sums) × Sums × Sums))

/-- Embeds the scenario cells of one notebook run.

* cell 14 computes the 2050 mortalities (raising `NameError` if the 2050
  load failed);
* cell 15 computes the 2000 mortalities first and then, in the same cell,
  the 2100 mortalities guarded by `if baseline_pm25_2100 is not None` — so a
  failed 2000 load aborts the 2100 mortality computation too;
* cell 18 aggregates the 2050 mortalities by country;
* cell 19 aggregates 2000, computes `change_2000_2050 =
  difference_sums_2050 - difference_sums_2000`, and then, later in the same
  cell and only `if difference_mortality_2100 is not None`, aggregates 2100
  and computes `change_2050_2100` and `change_2000_2100` — so a failure in
  the 2000 part also forfeits the 2100 aggregates. -/
noncomputable def runPipeline (death_rate : Raster ℝ) (cs : List (List Pt))
    (info : List CountryRecord) (y2000 y2050 y2100 : Option YearData) :
    PipelineResult :=
  let c14 : Except String (Raster ℝ × Raster ℝ × Raster ℝ) :=
    match y2050 with
    | none => .error "NameError: baseline_pm25_2050 is not defined"
    | some d => .ok (yearMortality death_rate d)
  let c15 : Except String
      ((Raster ℝ × Raster ℝ × Raster ℝ) × Option (Raster ℝ × Raster ℝ × Raster ℝ)) :=
    match y2000 with
    | none => .error "NameError: baseline_pm25_2000 is not defined"
    | some d => .ok (yearMortality death_rate d, y2100.map (yearMortality death_rate))
  let c18 : Except String (Sums × Sums × Sums) :=
    match c14 with
    | .error _ => .error "NameError: baseline_mortality_2050 is not defined"
    | .ok m => .ok (aggTriple m cs info)
  let c19 : Except String
      ((Sums × Sums × Sums) × Sums × Option ((Sums × Sums × Sums) × Sums × Sums)) :=
    match c15 with
    | .error _ => .error "NameError: baseline_mortality_2000 is not defined"
    | .ok md =>
      let s2000 := aggTriple md.1 cs info
      match c18 with
      | .error _ => .error "NameError: difference_sums_2050 is not defined"
      | .ok s2050 =>
        let chg := seriesSub s2050.2.2 s2000.2.2
        match md.2 with
        | none => .ok (s2000, chg, none)
        | some m2100 =>
          let s2100 := aggTriple m2100 cs info
          .ok (s2000, chg,
            some (s2100, seriesSub s2100.2.2 s2050.2.2, seriesSub s2100.2.2 s2000.2.2))
  ⟨c14, c15, c18, c19⟩

/-- C7 (amended): only the optional 2100 horizon is handled as the claim
describes.  When the 2100 rasters are unavailable the pipeline produces the
2000 and 2050 outputs unchanged (identical to a run in which 2100 is
present), reports the 2100 outputs and every difference referencing 2100 as
unavailable (`none`), and raises nothing.  But when the *2000* rasters are
unavailable, the pipeline raises a `NameError` mid-pipeline in cells 15 and
19 — and thereby also loses the 2100 aggregates computed later in cell 19. -/
theorem pipeline_2100_optional (death_rate : Raster ℝ) (cs : List (List Pt))
    (info : List CountryRecord) (a b y : YearData) :
    (runPipeline death_rate cs info (some a) (some b) none).cell18
        = (runPipeline death_rate cs info (some a) (some b) (some y)).cell18 ∧
    (runPipeline death_rate cs info (some a) (some b) none).cell19
        = .ok (aggTriple (yearMortality death_rate a) cs info,
            seriesSub (aggTriple (yearMortality death_rate b) cs info).2.2
              (aggTriple (yearMortality death_rate a) cs info).2.2, none) ∧
    (runPipeline death_rate cs info none (some b) (some y)).cell15
        = .error "NameError: baseline_pm25_2000 is not defined" ∧
    (runPipeline death_rate cs info none (some b) (some y)).cell19
        = .error "NameError: baseline_mortality_2000 is not defined" :=
  ⟨rfl, rfl, rfl, rfl⟩

/-- C7 counterexample: with the 2000 source rasters unavailable and the 2100
data present, the pipeline does not skip the absent year cleanly: cell 15
raises a `NameError` mid-pipeline, and cell 19 likewise raises — producing
neither the 2000 aggregates nor the 2100 aggregates that the same cell would
have computed. -/
theorem pipeline_2000_missing_counterexample :
    (runPipeline (⟨[], [], []⟩ : Raster ℝ) [] [] none
        (some ⟨⟨[], [], []⟩, ⟨[], [], []⟩, ⟨[], [], []⟩⟩)
        (some ⟨⟨[], [], []⟩, ⟨[], [], []⟩, ⟨[], [], []⟩⟩)).cell15
      = .error "NameError: baseline_pm25_2000 is not defined" ∧
    (runPipeline (⟨[], [], []⟩ : Raster ℝ) [] [] none
        (some ⟨⟨[], [], []⟩, ⟨[], [], []⟩, ⟨[], [], []⟩⟩)
        (some ⟨⟨[], [], []⟩, ⟨[], [], []⟩, ⟨[], [], []⟩⟩)).cell19
      = .error "NameError: baseline_mortality_2000 is not defined" :=
  ⟨rfl, rfl⟩

end SmokeMortality
